import Mathlib

/-!
# Verification of glymur's `Jp2k` orchestration layer (`src/glymur/jp2k.py`)

A shallow embedding of the `Jp2k` class: file-format detection in `_parse`,
the read orchestration (`read`, `read_bands`, `_read_common`) and the write
orchestration (`write`).  The external OpenJPEG codec engine is modelled as
an abstract oracle: engine calls appear as `Effect`s in a trace, and each
call may fail according to a supplied `fails` oracle (ctypes `errcheck`
raises a Python exception when the native call reports failure).

Bytes are modelled as natural numbers (each `< 256` in a real file); machine
integers in the source are plain Python ints, so `Nat`/`Int` are exact.
-/

namespace Glymur

/-- Big-endian 16-bit value of two bytes, as unpacked by `struct.unpack('>H')`. -/
def u16be (b0 b1 : Nat) : Nat := b0 * 256 + b1

/-- Big-endian 32-bit value of four bytes, as unpacked by `struct.unpack('>I')`. -/
def u32be (b0 b1 b2 b3 : Nat) : Nat := ((b0 * 256 + b1) * 256 + b2) * 256 + b3

/-- The codec format recorded by `Jp2k._parse` (`opj2._CODEC_J2K` /
`opj2._CODEC_JP2`). -/
inductive CodecFormat
  | j2k
  | jp2
deriving DecidableEq, Repr

/-- Errors raised by `Jp2k._parse`.  `notJP2Format` is the
`IOError('... is not a JPEG 2000 file.')` raised on a signature-box mismatch
(the spec's `NotJP2Format`); `truncated` is the `struct.error` raised by
`struct.unpack` when the file holds fewer bytes than requested. -/
inductive ParseError
  | notJP2Format
  | truncated
deriving DecidableEq, Repr

/-- `Jp2k._parse`: read the first two bytes; if they are the big-endian SOC
marker `0xff4f` the file is a bare codestream (`_CODEC_J2K`) and the box list
stays empty.  Otherwise unpack the first 12 bytes as `'>I4s4B'` and demand
length 12, type `b'jP  '` (bytes 106, 80, 32, 32) and signature payload
`(13, 10, 135, 10)`; on mismatch raise the not-a-JPEG-2000-file error, else
rewind and parse the whole file as a superbox.  `_parse_superbox` lives in
`jp2box.py` (outside the embedded module), so it is a parameter here; an
error return means no box tree was built. -/
def parse (Box : Type) (parseSuperbox : List Nat → List Box) (bytes : List Nat) :
    Except ParseError (CodecFormat × List Box) :=
  match bytes with
  | b0 :: b1 :: _ =>
    if u16be b0 b1 = 0xff4f then
      .ok (.j2k, [])
    else
      match bytes with
      | c0 :: c1 :: c2 :: c3 :: t0 :: t1 :: t2 :: t3 :: s0 :: s1 :: s2 :: s3 :: _ =>
        if u32be c0 c1 c2 c3 = 12 ∧ (t0, t1, t2, t3) = (106, 80, 32, 32)
            ∧ (s0, s1, s2, s3) = (13, 10, 135, 10) then
          .ok (.jp2, parseSuperbox bytes)
        else
          .error .notJP2Format
      | _ => .error .truncated
  | _ => .error .truncated

/-! ## Engine effects and native resources -/

/-- One call across the foreign-function boundary into the OpenJPEG engine.
The handler-setter calls (`_set_error_handler` etc.) touch no resource and
are omitted. -/
inductive Effect
  | streamCreate
  | createDecompress
  | setupDecoder
  | readHeader
  | getDecodedTile
  | setDecodeArea
  | decode
  | endDecompress
  | imageCreate
  | createCompress
  | setupEncoder
  | startCompress
  | encode
  | endCompress
  | streamDestroy
  | destroyCodec
  | imageDestroy
deriving DecidableEq, Repr

/-- The three native engine resources of the spec's resource model. -/
inductive Resource
  | stream
  | codec
  | image
deriving DecidableEq, Repr

/-- Which effect, when it succeeds, hands the caller a native resource. -/
def acquireOf : Effect → Option Resource
  | .streamCreate => some .stream
  | .createDecompress => some .codec
  | .createCompress => some .codec
  | .readHeader => some .image
  | .imageCreate => some .image
  | _ => none

/-- Which effect releases a native resource (the destroy calls return void
and cannot fail). -/
def releaseOf : Effect → Option Resource
  | .streamDestroy => some .stream
  | .destroyCodec => some .codec
  | .imageDestroy => some .image
  | _ => none

/-- Resources acquired along a trace: a create call that failed (per the
`fails` oracle) returned no handle and acquired nothing. -/
def acquired (fails : Effect → Bool) (tr : List Effect) : List Resource :=
  tr.filterMap (fun e => if fails e then none else acquireOf e)

/-- Resources released along a trace, in order. -/
def released (tr : List Effect) : List Resource :=
  tr.filterMap releaseOf

/-- The spec's scoped-acquisition discipline: every acquired resource is
released, in strict reverse order of acquisition. -/
def scopedRelease (fails : Effect → Bool) (tr : List Effect) : Prop :=
  released tr = (acquired fails tr).reverse

instance (fails : Effect → Bool) (tr : List Effect) :
    Decidable (scopedRelease fails tr) := by
  unfold scopedRelease; infer_instance

/-- The all-success engine oracle. -/
def noFail : Effect → Bool := fun _ => false

/-! ## Parsed marker segments (produced by `codestream.py`, consumed here) -/

/-- The per-component subsampling factors of the SIZ marker segment
(`codestream.segment[1].XRsiz` / `.YRsiz`). -/
structure SizSegment where
  xrsiz : List Nat
  yrsiz : List Nat
deriving DecidableEq, Repr

/-- The COD marker segment's parameter array `SPcod`; index 4 holds the
number of resolution levels minus one (the decomposition-level count). -/
structure CodSegment where
  spcod : List Nat
deriving DecidableEq, Repr

/-- The subsampling-uniformity test of `Jp2k.read`:
`np.any(dxs - dxs[0]) or np.any(dys - dys[0])` — true when any component's
horizontal or vertical subsampling factor differs from component 0's. -/
def mixedSubsampling (siz : SizSegment) : Bool :=
  siz.xrsiz.any (fun d => d != siz.xrsiz.headD 0)
    || siz.yrsiz.any (fun d => d != siz.yrsiz.headD 0)

/-! ## Read orchestration -/

/-- NumPy sample datatypes appearing in `jp2k.py`. -/
inductive Dtype
  | uint8
  | uint16
  | int8
  | int16
  | int32
deriving DecidableEq, Repr

/-- Bit width of an output sample datatype. -/
def dtypeWidth : Dtype → Nat
  | .uint8 => 8
  | .int8 => 8
  | .uint16 => 16
  | .int16 => 16
  | .int32 => 32

/-- Signedness of an output sample datatype. -/
def dtypeSigned : Dtype → Bool
  | .uint8 => false
  | .uint16 => false
  | .int8 => true
  | .int16 => true
  | .int32 => true

/-- Errors raised on the read paths.  `decodeArea` covers both `IOError`s of
the area validation (the spec's `DecodeAreaError`); `unhandledPrecision` is
`RuntimeError("Unhandled precision, datatype")`; `zeroSizeComponent` is the
`IOError` raised when a decoded component has zero rows or columns;
`mixedSubsampling` is the spec's `MixedSubsamplingError`; `engineError` is a
failure reported by a native call; `noComponents` models the `IndexError`
that `image.contents.comps[0]` would raise on an empty component list. -/
inductive ReadErr
  | mixedSubsampling
  | decodeArea
  | unhandledPrecision
  | zeroSizeComponent
  | engineError
  | noComponents
deriving DecidableEq, Repr

/-- Output datatype selection of `Jp2k._read_common` from the declared
precision and signedness of decoded component 0. -/
def chooseDtype (prec : Nat) (sgnd : Bool) : Except ReadErr Dtype :=
  if sgnd then
    if prec ≤ 8 then .ok .int8
    else if prec ≤ 16 then .ok .int16
    else .error .unhandledPrecision
  else
    if prec ≤ 8 then .ok .uint8
    else if prec ≤ 16 then .ok .uint16
    else .error .unhandledPrecision

/-- One decoded component of the engine's `opj_image_t`. -/
structure Component where
  h : Nat
  w : Nat
  prec : Nat
  sgnd : Bool
deriving DecidableEq, Repr

/-- The engine's decoded image: an ordered list of components. -/
structure OpjImage where
  comps : List Component
deriving DecidableEq, Repr

/-- Arguments of `Jp2k.read` / `read_bands` (`verbose` only toggles the info
handler and is omitted). -/
structure ReadArgs where
  reduce : Int := 0
  layer : Int := 0
  area : Option (Int × Int × Int × Int) := none
  tile : Option Nat := none
deriving DecidableEq, Repr

/-- The effective resolution reduction of `_read_common`: `reduce == -1`
asks for the lowest-resolution thumbnail, replaced by
`codestream.segment[2].SPcod[4]` (resolution levels minus one, from the COD
marker segment). -/
def effectiveReduce (cod : CodSegment) (reduce : Int) : Int :=
  if reduce = -1 then (cod.spcod.getD 4 0 : Int) else reduce

/-- Area validation of `_read_common`: the upper-left corner must be
non-negative, the lower-right corner strictly positive; both failures raise
an `IOError` (the spec's `DecodeAreaError`). -/
def validateArea : Option (Int × Int × Int × Int) → Option ReadErr
  | none => none
  | some (r0, c0, r1, c1) =>
    if r0 < 0 ∨ c0 < 0 then some .decodeArea
    else if r1 ≤ 0 ∨ c1 ≤ 0 then some .decodeArea
    else none

/-- The decoder parameter struct (`opj_dparameters_t`) as populated by
`_read_common`; the `DA_*` fields default to 0. -/
structure Dparams where
  decodFormat : CodecFormat
  cpLayer : Int
  cpReduce : Int
  daY0 : Int := 0
  daX0 : Int := 0
  daY1 : Int := 0
  daX1 : Int := 0
  tileIndex : Option Nat := none
deriving DecidableEq, Repr

/-- The `DA_y0, DA_x0, DA_y1, DA_x1` values: the `area` tuple when given,
otherwise the zero defaults of `opj_set_default_decoder_parameters`. -/
def daOf : Option (Int × Int × Int × Int) → Int × Int × Int × Int
  | none => (0, 0, 0, 0)
  | some q => q

/-- The engine-call sequence of `_read_common`'s `ExitStack` block.  Each
create registers its destroy callback right after succeeding; on scope exit
(normal or exceptional) the `ExitStack` runs the registered callbacks in
last-in-first-out order.  Returns the full effect trace and whether the
block completed without an engine failure. -/
def readEngineSeq (fails : Effect → Bool) (useTile : Bool) : List Effect × Bool :=
  if fails .streamCreate then
    ([.streamCreate], false)
  else if fails .createDecompress then
    ([.streamCreate, .createDecompress, .streamDestroy], false)
  else if fails .setupDecoder then
    ([.streamCreate, .createDecompress, .setupDecoder,
      .destroyCodec, .streamDestroy], false)
  else if fails .readHeader then
    ([.streamCreate, .createDecompress, .setupDecoder, .readHeader,
      .destroyCodec, .streamDestroy], false)
  else if useTile then
    ([.streamCreate, .createDecompress, .setupDecoder, .readHeader,
      .getDecodedTile, .imageDestroy, .destroyCodec, .streamDestroy],
     !fails .getDecodedTile)
  else if fails .setDecodeArea then
    ([.streamCreate, .createDecompress, .setupDecoder, .readHeader,
      .setDecodeArea, .imageDestroy, .destroyCodec, .streamDestroy], false)
  else if fails .decode then
    ([.streamCreate, .createDecompress, .setupDecoder, .readHeader,
      .setDecodeArea, .decode, .imageDestroy, .destroyCodec, .streamDestroy],
     false)
  else
    ([.streamCreate, .createDecompress, .setupDecoder, .readHeader,
      .setDecodeArea, .decode, .endDecompress,
      .imageDestroy, .destroyCodec, .streamDestroy],
     !fails .endDecompress)

/-- The decoded result handed back to the caller: shape and datatype of the
single array built by `read`, or the list of per-component buffer dimensions
built by `read_bands`. -/
inductive ReadResult
  | arr (shape : List Nat) (dtype : Dtype)
  | bands (dims : List (Nat × Nat)) (dtype : Dtype)
deriving DecidableEq, Repr

/-- The post-decode phase of `_read_common`: pick the output datatype from
component 0's precision and signedness, reject any component with zero rows
or columns (which would segfault), then either collect per-component
buffers (`as_bands`) or fill one `(h0, w0, numcomps)` array. -/
def postProcess (image : OpjImage) (asBands : Bool) : Except ReadErr ReadResult :=
  match image.comps with
  | [] => .error .noComponents
  | c0 :: _ =>
    match chooseDtype c0.prec c0.sgnd with
    | .error e => .error e
    | .ok dt =>
      if image.comps.any (fun c => c.h == 0 || c.w == 0) then
        .error .zeroSizeComponent
      else if asBands then
        .ok (.bands (image.comps.map (fun c => (c.h, c.w))) dt)
      else
        .ok (.arr [c0.h, c0.w, image.comps.length] dt)

/-- `Jp2k._read_common`: resolve the thumbnail reduce, validate the area
restriction (both before any engine call), then run the engine sequence;
`engine` maps the populated decoder parameters to the decoded image. -/
def readCommon (fails : Effect → Bool) (engine : Dparams → OpjImage)
    (fmt : CodecFormat) (cod : CodSegment) (a : ReadArgs) (asBands : Bool) :
    List Effect × Except ReadErr ReadResult :=
  let red := effectiveReduce cod a.reduce
  match validateArea a.area with
  | some e => ([], .error e)
  | none =>
    let da := daOf a.area
    let dp : Dparams :=
      { decodFormat := fmt, cpLayer := a.layer, cpReduce := red,
        daY0 := da.1, daX0 := da.2.1, daY1 := da.2.2.1, daX1 := da.2.2.2,
        tileIndex := a.tile }
    let st := readEngineSeq fails a.tile.isSome
    if st.2 then (st.1, postProcess (engine dp) asBands)
    else (st.1, .error .engineError)

/-- The final reshape of `Jp2k.read`: a singleton component axis is dropped
(`data.shape = data.shape[0:2]` when `data.shape[2] == 1`). -/
def dropSingletonComp : ReadResult → ReadResult
  | .arr sh dt => if sh.getD 2 0 = 1 then .arr (sh.take 2) dt else .arr sh dt
  | r => r

/-- `Jp2k.read`: reject mixed subsampling before anything else, then decode
into a single array and drop a singleton component axis. -/
def read (fails : Effect → Bool) (engine : Dparams → OpjImage)
    (fmt : CodecFormat) (siz : SizSegment) (cod : CodSegment) (a : ReadArgs) :
    List Effect × Except ReadErr ReadResult :=
  if mixedSubsampling siz then ([], .error .mixedSubsampling)
  else
    let r := readCommon fails engine fmt cod a false
    (r.1, r.2.map dropSingletonComp)

/-- `Jp2k.read_bands`: hand everything to `_read_common` with
`as_bands=True`; no subsampling check is performed. -/
def readBands (fails : Effect → Bool) (engine : Dparams → OpjImage)
    (fmt : CodecFormat) (cod : CodSegment) (a : ReadArgs) :
    List Effect × Except ReadErr ReadResult :=
  readCommon fails engine fmt cod a true

/-- Ceiling division `⌈a / b⌉` on naturals. -/
def ceilDiv (a b : Nat) : Nat := (a + b - 1) / b

/-- Modelled from the spec: the external codec engine (OpenJPEG, not part of
this repository) decodes each component at resolution reduction `cp_reduce`
to dimensions `ceil(full_dim / 2^cp_reduce)` of the full dimensions, keeping
each component's declared precision and signedness. -/
def specEngine (rows cols : Nat) (comps : List (Nat × Bool)) (dp : Dparams) :
    OpjImage :=
  { comps := comps.map (fun pc =>
      { h := ceilDiv rows (2 ^ dp.cpReduce.toNat),
        w := ceilDiv cols (2 ^ dp.cpReduce.toNat),
        prec := pc.1, sgnd := pc.2 }) }

/-! ## Write orchestration -/

/-- Errors raised by `Jp2k.write` before the engine is invoked; every one is
an instance of the spec's `ConfigurationError` taxonomy.  `codeBlockSize` is
the `RuntimeError` on a code-block area/minimum violation; `codeBlockPow2`
and `precinctPow2` the `IOError`s on non-power-of-two sizes;
`precinctTooSmall` the `IOError` when the finest-resolution precinct is
smaller than twice the code block; `conflictingQuality` the `RuntimeError`
when `cratios` and `psnr` are both given; `badDimensionality` the `IOError`
on a non-2D/3D buffer; `colorspaceWithJ2K`, `invalidColorspace` and
`rgbTooFewComps` the colorspace `IOError`s; `unhandledDatatype` the
`RuntimeError` on an unsupported sample dtype; `engineFailure` a native-call
failure. -/
inductive WriteErr
  | codeBlockSize
  | codeBlockPow2
  | precinctTooSmall
  | precinctPow2
  | conflictingQuality
  | badDimensionality
  | colorspaceWithJ2K
  | invalidColorspace
  | rgbTooFewComps
  | unhandledDatatype
  | engineFailure
deriving DecidableEq, Repr

/-- OpenJPEG colorspace constants reachable through `_cspace_map` and the
component-count default. -/
inductive Colorspace
  | srgb
  | gray
  | ycc
deriving DecidableEq, Repr

/-- ASCII lower-casing of one character, as `str.lower` acts on the
filenames and colorspace names used here. -/
def lowerChar (c : Char) : Char :=
  if 'A' ≤ c && c ≤ 'Z' then Char.ofNat (c.toNat + 32) else c

/-- ASCII lower-casing of a string. -/
def strLower (s : String) : String := ⟨s.data.map lowerChar⟩

/-- The output-format test of `Jp2k.write`:
`self.filename[-4:].lower() == '.jp2'`. -/
def isJp2Filename (filename : String) : Bool :=
  (strLower ⟨(filename.data.reverse.take 4).reverse⟩).data == ".jp2".data

/-- Power-of-two test, with the first argument as recursion fuel. -/
def isPow2Fuel : Nat → Nat → Bool
  | _, 1 => true
  | 0, _ => false
  | _ + 1, 0 => false
  | fuel + 1, n + 2 => (n + 2) % 2 == 0 && isPow2Fuel fuel ((n + 2) / 2)

/-- Exact rendering of the source's power-of-two test
`math.log(n, 2) == math.floor(math.log(n, 2))` (true over the reals exactly
for the powers of two). -/
def isPow2 (n : Nat) : Bool := isPow2Fuel n n

/-- Code-block size validation of `Jp2k.write`: reject when the area
exceeds 4096 samples or a side is below 4 (`RuntimeError`), then when a side
is not a power of two (`IOError`). -/
def validateCbsize (h w : Nat) : Option WriteErr :=
  if 4096 < h * w || h < 4 || w < 4 then some .codeBlockSize
  else if !isPow2 h || !isPow2 w then some .codeBlockPow2
  else none

/-- The fields of the encoder parameter struct (`opj_cparameters_t`) that
`Jp2k.write` populates.  Fields left at the engine defaults by
`_set_default_encoder_parameters` stay `none` / their stated initial value. -/
structure Cparams where
  codFormat : CodecFormat
  tcpRates : List Int := [0]
  tcpNumlayers : Nat := 1
  cpDistoAlloc : Bool := true
  cpFixedQuality : Bool := false
  tcpDistoratioList : List Int := []
  csty : Nat := 0
  cblockwInit : Option Nat := none
  cblockhInit : Option Nat := none
  numresolution : Option Nat := none
  progOrder : Option Nat := none
  prchInitList : List Nat := []
  prcwInitList : List Nat := []
  resSpec : Nat := 0
  subsamplingDy : Option Nat := none
  subsamplingDx : Option Nat := none
  cpTdy : Option Nat := none
  cpTdx : Option Nat := none
  tileSizeOn : Bool := false
  imageOffsetY0 : Option Nat := none
  imageOffsetX0 : Option Nat := none
  mode : Nat := 0
  tcpMct : Nat := 0
deriving DecidableEq, Repr

/-- Arguments of `Jp2k.write` (`verbose` only toggles the info handler and
is omitted; `prog` is the index already looked up in the
`progression_order` table of `core.py`). -/
structure WriteArgs where
  filename : String
  shape : List Nat
  dtype : Dtype
  cratios : Option (List Int) := none
  eph : Bool := false
  psnr : Option (List Int) := none
  numres : Option Nat := none
  cbsize : Option (Nat × Nat) := none
  psizes : Option (List (Nat × Nat)) := none
  gridOffset : Option (Nat × Nat) := none
  sop : Bool := false
  subsam : Option (Nat × Nat) := none
  tilesize : Option (Nat × Nat) := none
  prog : Option Nat := none
  modesw : Option Nat := none
  colorspace : Option String := none
deriving DecidableEq, Repr

/-- The `cparams` value after `_set_default_encoder_parameters` and the
initial lossless defaults (`tcp_rates[0] = 0`, one layer,
`cp_disto_alloc = 1`). -/
def cparams0 (codecFmt : CodecFormat) : Cparams :=
  { codFormat := codecFmt }

/-- The `cbsize` block of `Jp2k.write`. -/
def applyCbsize (cb : Option (Nat × Nat)) (p : Cparams) :
    Except WriteErr Cparams :=
  match cb with
  | none => .ok p
  | some (h, w) =>
    match validateCbsize h w with
    | some e => .error e
    | none => .ok { p with cblockwInit := some w, cblockhInit := some h }

/-- The `cratios` block: one quality layer per ratio, rate-allocated. -/
def applyCratios (cr : Option (List Int)) (p : Cparams) : Cparams :=
  match cr with
  | none => p
  | some rs =>
    { p with tcpNumlayers := rs.length, tcpRates := rs, cpDistoAlloc := true }

/-- The `eph` flag: `csty |= 0x04`. -/
def applyEph (eph : Bool) (p : Cparams) : Cparams :=
  if eph then { p with csty := p.csty ||| 0x04 } else p

/-- The `grid_offset` block. -/
def applyGridOffset (go : Option (Nat × Nat)) (p : Cparams) : Cparams :=
  match go with
  | none => p
  | some (y, x) => { p with imageOffsetX0 := some x, imageOffsetY0 := some y }

/-- The `modesw` block: copy mode-switch bits 0–5. -/
def applyModesw (m : Option Nat) (p : Cparams) : Cparams :=
  match m with
  | none => p
  | some m => { p with mode := p.mode ||| (m &&& 63) }

/-- The `numres` block. -/
def applyNumres (n : Option Nat) (p : Cparams) : Cparams :=
  match n with
  | none => p
  | some n => { p with numresolution := some n }

/-- The `prog` block (table lookup done in `core.py`). -/
def applyProg (pr : Option Nat) (p : Cparams) : Cparams :=
  match pr with
  | none => p
  | some pr => { p with progOrder := some pr }

/-- The `psnr` block: one layer per PSNR target, fixed-quality allocated. -/
def applyPsnr (ps : Option (List Int)) (p : Cparams) : Cparams :=
  match ps with
  | none => p
  | some qs =>
    { p with tcpNumlayers := qs.length, tcpDistoratioList := qs,
             cpFixedQuality := true }

/-- The `psizes` block: the finest-resolution precinct (index 0) must be at
least twice the code block in each dimension when a code-block size was
given, every precinct side must be a power of two, and the precinct lists,
`csty |= 0x01` and `res_spec` are recorded. -/
def applyPsizes (ps : Option (List (Nat × Nat))) (cb : Option (Nat × Nat))
    (p : Cparams) : Except WriteErr Cparams :=
  match ps with
  | none => .ok p
  | some sizes =>
    match sizes, cb with
    | (prch, prcw) :: _, some (cblkh, cblkw) =>
      if prch < cblkh * 2 || prcw < cblkw * 2 then .error .precinctTooSmall
      else if sizes.any (fun q => !isPow2 q.1 || !isPow2 q.2) then
        .error .precinctPow2
      else .ok { p with prchInitList := sizes.map Prod.fst,
                        prcwInitList := sizes.map Prod.snd,
                        csty := p.csty ||| 0x01, resSpec := sizes.length }
    | _, _ =>
      if sizes.any (fun q => !isPow2 q.1 || !isPow2 q.2) then
        .error .precinctPow2
      else .ok { p with prchInitList := sizes.map Prod.fst,
                        prcwInitList := sizes.map Prod.snd,
                        csty := p.csty ||| 0x01, resSpec := sizes.length }

/-- The `sop` flag: `csty |= 0x02`. -/
def applySop (sop : Bool) (p : Cparams) : Cparams :=
  if sop then { p with csty := p.csty ||| 0x02 } else p

/-- The `subsam` block. -/
def applySubsam (ss : Option (Nat × Nat)) (p : Cparams) : Cparams :=
  match ss with
  | none => p
  | some (dy, dx) =>
    { p with subsamplingDy := some dy, subsamplingDx := some dx }

/-- The `tilesize` block. -/
def applyTilesize (ts : Option (Nat × Nat)) (p : Cparams) : Cparams :=
  match ts with
  | none => p
  | some (trows, tcols) =>
    { p with cpTdx := some tcols, cpTdy := some trows, tileSizeOn := true }

/-- The mutual-exclusion check: `cratios` and `psnr` may not both be
supplied (`RuntimeError`). -/
def checkQualityConflict (cr : Option (List Int)) (ps : Option (List Int)) :
    Option WriteErr :=
  if cr.isSome && ps.isSome then some .conflictingQuality else none

/-- The dimensionality block: a 2-D buffer is reshaped to
`(numrows, numcols, 1)`, a 3-D buffer passes, anything else raises. -/
def resolveShape : List Nat → Except WriteErr (Nat × Nat × Nat)
  | [r, c] => .ok (r, c, 1)
  | [r, c, n] => .ok (r, c, n)
  | _ => .error .badDimensionality

/-- The colorspace block: default to grayscale for 1 or 2 components and to
sRGB otherwise; an explicit colorspace is rejected for a bare-codestream
target, must name rgb/grey/gray after lower-casing, and rgb needs at least
3 components. -/
def resolveColorspace (cs : Option String) (codecFmt : CodecFormat)
    (numComps : Nat) : Except WriteErr Colorspace :=
  match cs with
  | none =>
    if numComps = 1 || numComps = 2 then .ok .gray else .ok .srgb
  | some s =>
    if codecFmt = .j2k then .error .colorspaceWithJ2K
    else
      if strLower s != "rgb" && strLower s != "grey" && strLower s != "gray" then
        .error .invalidColorspace
      else if strLower s == "rgb" && numComps < 3 then .error .rgbTooFewComps
      else if strLower s == "rgb" then .ok .srgb else .ok .gray

/-- The sample-precision block: only `uint8` and `uint16` buffers are
accepted. -/
def resolvePrec : Dtype → Except WriteErr Nat
  | .uint8 => .ok 8
  | .uint16 => .ok 16
  | _ => .error .unhandledDatatype

/-- Everything `Jp2k.write` computes and validates before the first engine
call. -/
structure WriteConfig where
  cparams : Cparams
  colorspace : Colorspace
  compPrec : Nat
  numrows : Nat
  numcols : Nat
  numComps : Nat
deriving DecidableEq, Repr

/-- The pure validation/configuration phase of `Jp2k.write` at a fixed
output codec format, in source order: the `cparams` blocks run first
(`cbsize` through `tilesize`, with the `psizes` block the only other
raiser), then the `cratios`/`psnr` exclusion check, the dimensionality
check, the colorspace resolution and the sample-precision check.  Every
raise of the method happens here, before `opj2._image_create`.  The
multi-component transform is enabled exactly for 3 components. -/
def writeConfigFmt (codecFmt : CodecFormat) (a : WriteArgs) :
    Except WriteErr WriteConfig :=
  match applyCbsize a.cbsize (cparams0 codecFmt) with
  | .error e => .error e
  | .ok p0 =>
    match applyPsizes a.psizes a.cbsize
        (applyPsnr a.psnr (applyProg a.prog (applyNumres a.numres
          (applyModesw a.modesw (applyGridOffset a.gridOffset
            (applyEph a.eph (applyCratios a.cratios p0))))))) with
    | .error e => .error e
    | .ok p1 =>
      match checkQualityConflict a.cratios a.psnr with
      | some e => .error e
      | none =>
        match resolveShape a.shape with
        | .error e => .error e
        | .ok (numrows, numcols, numComps) =>
          match resolveColorspace a.colorspace codecFmt numComps with
          | .error e => .error e
          | .ok cs =>
            match resolvePrec a.dtype with
            | .error e => .error e
            | .ok prec =>
              .ok { cparams :=
                      { applyTilesize a.tilesize
                          (applySubsam a.subsam (applySop a.sop p1)) with
                        tcpMct := if numComps = 3 then 1 else 0 },
                    colorspace := cs, compPrec := prec,
                    numrows := numrows, numcols := numcols,
                    numComps := numComps }

/-- The configuration phase of `Jp2k.write`, with the codec format derived
from the output filename's extension. -/
def writeConfig (a : WriteArgs) : Except WriteErr WriteConfig :=
  writeConfigFmt
    (if isJp2Filename a.filename then CodecFormat.jp2 else CodecFormat.j2k) a

/-- The engine-call sequence of `Jp2k.write`: image, codec and stream are
acquired in that order; the three destroy calls run only at the end of the
straight-line sequence — there is no `try`/`finally` or `ExitStack`, so an
engine failure leaves every resource acquired so far unreleased.  Returns
the effect trace and whether the sequence completed. -/
def writeEngineSeq (fails : Effect → Bool) : List Effect × Bool :=
  if fails .imageCreate then
    ([.imageCreate], false)
  else if fails .createCompress then
    ([.imageCreate, .createCompress], false)
  else if fails .setupEncoder then
    ([.imageCreate, .createCompress, .setupEncoder], false)
  else if fails .streamCreate then
    ([.imageCreate, .createCompress, .setupEncoder, .streamCreate], false)
  else if fails .startCompress then
    ([.imageCreate, .createCompress, .setupEncoder, .streamCreate,
      .startCompress], false)
  else if fails .encode then
    ([.imageCreate, .createCompress, .setupEncoder, .streamCreate,
      .startCompress, .encode], false)
  else if fails .endCompress then
    ([.imageCreate, .createCompress, .setupEncoder, .streamCreate,
      .startCompress, .encode, .endCompress], false)
  else
    ([.imageCreate, .createCompress, .setupEncoder, .streamCreate,
      .startCompress, .encode, .endCompress,
      .streamDestroy, .destroyCodec, .imageDestroy], true)

/-- `Jp2k.write`: run the pure configuration phase; on success run the
engine sequence (the final `self._parse()` refresh of the box tree is not
modelled).  The effect trace is empty whenever configuration fails. -/
def write (fails : Effect → Bool) (a : WriteArgs) :
    List Effect × Except WriteErr WriteConfig :=
  match writeConfig a with
  | .error e => ([], .error e)
  | .ok cfg =>
    let st := writeEngineSeq fails
    if st.2 then (st.1, .ok cfg) else (st.1, .error .engineFailure)

/-- An engine oracle whose `opj_encode` call fails (as a native OpenJPEG
error would surface through `errcheck`). -/
def failEncode : Effect → Bool := fun e => e == Effect.encode

/-- A well-formed write request: an 8-bit 2×2 single-component image to a
`.jp2` container, all optional parameters at their defaults. -/
def leakArgs : WriteArgs :=
  { filename := "t.jp2", shape := [2, 2], dtype := .uint8 }

/-! ## Helper lemmas -/

theorem isPow2Fuel_iff (fuel : Nat) :
    ∀ n, n ≤ fuel → (isPow2Fuel fuel n = true ↔ ∃ k, n = 2 ^ k) := by
  induction fuel with
  | zero =>
    intro n hn
    have hn0 : n = 0 := Nat.le_zero.mp hn
    subst hn0
    simp only [isPow2Fuel, Bool.false_eq_true, false_iff]
    rintro ⟨k, hk⟩
    exact absurd hk.symm (pow_ne_zero k (by norm_num))
  | succ fuel ih =>
    intro n hn
    match n with
    | 0 =>
      simp only [isPow2Fuel, Bool.false_eq_true, false_iff]
      rintro ⟨k, hk⟩
      exact absurd hk.symm (pow_ne_zero k (by norm_num))
    | 1 =>
      simp only [isPow2Fuel, true_iff]
      exact ⟨0, by norm_num⟩
    | m + 2 =>
      have hdiv : (m + 2) / 2 ≤ fuel := by omega
      have hstep : isPow2Fuel (fuel + 1) (m + 2)
          = ((m + 2) % 2 == 0 && isPow2Fuel fuel ((m + 2) / 2)) := rfl
      rw [hstep, Bool.and_eq_true, beq_iff_eq, ih ((m + 2) / 2) hdiv]
      constructor
      · rintro ⟨hmod, k, hk⟩
        exact ⟨k + 1, by rw [pow_succ]; omega⟩
      · rintro ⟨k, hk⟩
        cases k with
        | zero => rw [pow_zero] at hk; omega
        | succ j =>
          rw [pow_succ] at hk
          exact ⟨by omega, j, by omega⟩

theorem isPow2_iff (n : Nat) : isPow2 n = true ↔ ∃ k, n = 2 ^ k :=
  isPow2Fuel_iff n n (Nat.le_refl n)

theorem validateCbsize_isSome_iff (h w : Nat) :
    (validateCbsize h w).isSome = true ↔
      4096 < h * w ∨ h < 4 ∨ w < 4
        ∨ (¬∃ k, h = 2 ^ k) ∨ (¬∃ k, w = 2 ^ k) := by
  have hp := isPow2_iff h
  have wp := isPow2_iff w
  unfold validateCbsize
  split
  · rename_i hc
    simp only [Bool.or_eq_true, decide_eq_true_eq] at hc
    simp only [Option.isSome_some, true_iff]
    tauto
  · rename_i hc
    simp only [Bool.or_eq_true, decide_eq_true_eq, not_or, not_lt] at hc
    split
    · rename_i hc2
      simp only [Bool.or_eq_true, Bool.not_eq_true'] at hc2
      simp only [Option.isSome_some, true_iff]
      rcases hc2 with h1 | h1
      · exact Or.inr (Or.inr (Or.inr (Or.inl (by rw [← hp, h1]; simp))))
      · exact Or.inr (Or.inr (Or.inr (Or.inr (by rw [← wp, h1]; simp))))
    · rename_i hc2
      simp only [Bool.or_eq_true, Bool.not_eq_true', not_or] at hc2
      simp only [Option.isSome_none, Bool.false_eq_true, false_iff, not_or,
        not_lt, not_not]
      refine ⟨?_, ?_, ?_, ?_, ?_⟩
      · tauto
      · tauto
      · tauto
      · rw [← hp]; simpa using hc2.1
      · rw [← wp]; simpa using hc2.2

theorem write_of_config_error (fails : Effect → Bool) (a : WriteArgs)
    (e : WriteErr) (h : writeConfig a = .error e) :
    write fails a = ([], .error e) := by
  unfold write
  rw [h]

theorem write_rejected_of_not_ok (fails : Effect → Bool) (a : WriteArgs)
    (h : ∀ cfg, writeConfig a ≠ .ok cfg) :
    ∃ e, write fails a = ([], .error e) := by
  cases hx : writeConfig a with
  | error e => exact ⟨e, write_of_config_error fails a e hx⟩
  | ok cfg => exact absurd hx (h cfg)

theorem writeConfig_cbsize_error (a : WriteArgs) (h w : Nat) (e : WriteErr)
    (hcb : a.cbsize = some (h, w)) (hval : validateCbsize h w = some e) :
    writeConfig a = .error e := by
  simp only [writeConfig, writeConfigFmt, hcb, applyCbsize, hval]

theorem validateCbsize_error_cases (h w : Nat) (e : WriteErr)
    (hv : validateCbsize h w = some e) :
    e = .codeBlockSize ∨ e = .codeBlockPow2 := by
  unfold validateCbsize at hv
  split at hv
  · simp only [Option.some.injEq] at hv
    exact Or.inl hv.symm
  · split at hv
    · simp only [Option.some.injEq] at hv
      exact Or.inr hv.symm
    · cases hv

theorem applyCbsize_error_cases (cb : Option (Nat × Nat)) (p : Cparams)
    (e : WriteErr) (h : applyCbsize cb p = .error e) :
    e = .codeBlockSize ∨ e = .codeBlockPow2 := by
  unfold applyCbsize at h
  split at h
  · cases h
  · split at h
    · rename_i heq
      simp only [Except.error.injEq] at h
      exact h ▸ validateCbsize_error_cases _ _ _ heq
    · cases h

theorem applyPsizes_error_cases (ps : Option (List (Nat × Nat)))
    (cb : Option (Nat × Nat)) (p : Cparams) (e : WriteErr)
    (h : applyPsizes ps cb p = .error e) :
    e = .precinctTooSmall ∨ e = .precinctPow2 := by
  unfold applyPsizes at h
  split at h
  · cases h
  · split at h
    · split at h
      · simp only [Except.error.injEq] at h
        exact Or.inl h.symm
      · split at h
        · simp only [Except.error.injEq] at h
          exact Or.inr h.symm
        · cases h
    · split at h
      · simp only [Except.error.injEq] at h
        exact Or.inr h.symm
      · cases h

theorem checkQualityConflict_cases (cr ps : Option (List Int)) (e : WriteErr)
    (h : checkQualityConflict cr ps = some e) : e = .conflictingQuality := by
  unfold checkQualityConflict at h
  split at h
  · simp only [Option.some.injEq] at h
    exact h.symm
  · cases h

theorem resolveShape_error_cases (sh : List Nat) (e : WriteErr)
    (h : resolveShape sh = .error e) : e = .badDimensionality := by
  unfold resolveShape at h
  split at h
  · cases h
  · cases h
  · simp only [Except.error.injEq] at h
    exact h.symm

theorem resolveColorspace_error_cases (cs : Option String)
    (fmt : CodecFormat) (n : Nat) (e : WriteErr)
    (h : resolveColorspace cs fmt n = .error e) :
    e = .colorspaceWithJ2K ∨ e = .invalidColorspace ∨ e = .rgbTooFewComps := by
  unfold resolveColorspace at h
  split at h
  · split at h <;> cases h
  · split at h
    · simp only [Except.error.injEq] at h
      exact Or.inl h.symm
    · split at h
      · simp only [Except.error.injEq] at h
        exact Or.inr (Or.inl h.symm)
      · split at h
        · simp only [Except.error.injEq] at h
          exact Or.inr (Or.inr h.symm)
        · split at h <;> cases h

theorem resolvePrec_error_cases (dt : Dtype) (e : WriteErr)
    (h : resolvePrec dt = .error e) : e = .unhandledDatatype := by
  unfold resolvePrec at h
  split at h
  · cases h
  · cases h
  · simp only [Except.error.injEq] at h
    exact h.symm

/-- Every error of the configuration phase is a validation (configuration)
error, never an engine failure: `write` raises it before any engine call. -/
theorem writeConfigFmt_error_not_engine (fmt : CodecFormat) (a : WriteArgs)
    (e : WriteErr) (h : writeConfigFmt fmt a = .error e) :
    e ≠ .engineFailure := by
  unfold writeConfigFmt at h
  split at h
  · rename_i heq
    injection h with h
    subst h
    rcases applyCbsize_error_cases _ _ _ heq with h' | h' <;> simp [h']
  · split at h
    · rename_i heq
      injection h with h
      subst h
      rcases applyPsizes_error_cases _ _ _ _ heq with h' | h' <;> simp [h']
    · split at h
      · rename_i heq
        injection h with h
        subst h
        have h' := checkQualityConflict_cases _ _ _ heq
        simp [h']
      · split at h
        · rename_i heq
          injection h with h
          subst h
          have h' := resolveShape_error_cases _ _ heq
          simp [h']
        · split at h
          · rename_i heq
            injection h with h
            subst h
            rcases resolveColorspace_error_cases _ _ _ _ heq with h' | h' | h' <;>
              simp [h']
          · split at h
            · rename_i heq
              injection h with h
              subst h
              have h' := resolvePrec_error_cases _ _ heq
              simp [h']
            · cases h

theorem writeConfig_error_not_engine (a : WriteArgs) (e : WriteErr)
    (h : writeConfig a = .error e) : e ≠ .engineFailure :=
  writeConfigFmt_error_not_engine _ a e h

/-- The configuration phase succeeds only if the mutually exclusive quality
controls were not both supplied. -/
theorem writeConfigFmt_ok_no_conflict (fmt : CodecFormat) (a : WriteArgs)
    (cfg : WriteConfig) (h : writeConfigFmt fmt a = .ok cfg) :
    ¬(a.cratios.isSome = true ∧ a.psnr.isSome = true) := by
  rintro ⟨h1, h2⟩
  unfold writeConfigFmt at h
  split at h
  · cases h
  · split at h
    · cases h
    · split at h
      · cases h
      · rename_i heq
        unfold checkQualityConflict at heq
        rw [h1, h2] at heq
        simp at heq

/-- The configuration phase records exactly the colorspace resolved from the
explicit argument, the output format and the component count. -/
theorem writeConfigFmt_ok_colorspace (fmt : CodecFormat) (a : WriteArgs)
    (cfg : WriteConfig) (h : writeConfigFmt fmt a = .ok cfg) :
    resolveColorspace a.colorspace fmt cfg.numComps = .ok cfg.colorspace := by
  unfold writeConfigFmt at h
  split at h
  · cases h
  · split at h
    · cases h
    · split at h
      · cases h
      · split at h
        · cases h
        · split at h
          · cases h
          · rename_i heq
            split at h
            · cases h
            · injection h with h
              subst h
              exact heq

/-- The `ExitStack` of `_read_common` releases exactly the acquired
resources, in reverse acquisition order, on every exit path of the engine
block. -/
theorem readEngineSeq_scoped (fails : Effect → Bool) (useTile : Bool) :
    scopedRelease fails (readEngineSeq fails useTile).1 := by
  unfold readEngineSeq scopedRelease released acquired
  by_cases h1 : fails .streamCreate <;>
    by_cases h2 : fails .createDecompress <;>
      by_cases h3 : fails .setupDecoder <;>
        by_cases h4 : fails .readHeader <;>
          by_cases h5 : fails .setDecodeArea <;>
            by_cases h6 : fails .decode <;>
              cases useTile <;>
                simp [h1, h2, h3, h4, h5, h6, acquireOf, releaseOf]

theorem readCommon_scoped (fails : Effect → Bool) (engine : Dparams → OpjImage)
    (fmt : CodecFormat) (cod : CodSegment) (a : ReadArgs) (b : Bool) :
    scopedRelease fails (readCommon fails engine fmt cod a b).1 := by
  unfold readCommon
  split
  · simp [scopedRelease, released, acquired]
  · dsimp only
    split
    · exact readEngineSeq_scoped fails a.tile.isSome
    · exact readEngineSeq_scoped fails a.tile.isSome

/-- On the successful path of `write`, the straight-line destroy calls
release the resources in reverse acquisition order. -/
theorem writeEngineSeq_ok_scoped (fails : Effect → Bool)
    (h : (writeEngineSeq fails).2 = true) :
    scopedRelease fails (writeEngineSeq fails).1 := by
  unfold writeEngineSeq at h ⊢
  by_cases h1 : fails .imageCreate
  · simp [h1] at h
  · by_cases h2 : fails .createCompress
    · simp [h1, h2] at h
    · by_cases h3 : fails .setupEncoder
      · simp [h1, h2, h3] at h
      · by_cases h4 : fails .streamCreate
        · simp [h1, h2, h3, h4] at h
        · by_cases h5 : fails .startCompress
          · simp [h1, h2, h3, h4, h5] at h
          · by_cases h6 : fails .encode
            · simp [h1, h2, h3, h4, h5, h6] at h
            · by_cases h7 : fails .endCompress
              · simp [h1, h2, h3, h4, h5, h6, h7] at h
              · simp [h1, h2, h3, h4, h5, h6, h7, scopedRelease, released,
                  acquired, acquireOf, releaseOf]

theorem write_ok_scoped (fails : Effect → Bool) (a : WriteArgs)
    (tr : List Effect) (cfg : WriteConfig)
    (h : write fails a = (tr, .ok cfg)) : scopedRelease fails tr := by
  unfold write at h
  split at h
  · injection h with h1 h2
    cases h2
  · dsimp only at h
    split at h
    · rename_i heq
      injection h with h1 h2
      subst h1
      exact writeEngineSeq_ok_scoped fails heq
    · injection h with h1 h2
      cases h2

/-! ## Claim theorems -/

/-- **C1**: format detection in `Jp2k._parse`.  If the first two bytes are
the big-endian marker 0xFF4F the file is recorded as a bare codestream and
the box list stays empty; otherwise the first 12 bytes must have length
field 12, type `'jP  '` and trailing payload (13, 10, 135, 10) — if any of
these differs, parsing fails with the `NotJP2Format` error and no box tree
is built, and on a full match the box tree is parsed. -/
theorem claim1_parse_format_detection (Box : Type) (sb : List Nat → List Box)
    (b0 b1 b2 b3 t0 t1 t2 t3 s0 s1 s2 s3 : Nat) (rest : List Nat) :
    (u16be b0 b1 = 0xff4f →
      parse Box sb (b0 :: b1 :: b2 :: b3 :: t0 :: t1 :: t2 :: t3
          :: s0 :: s1 :: s2 :: s3 :: rest) = .ok (.j2k, [])) ∧
    (u16be b0 b1 ≠ 0xff4f →
      ¬(u32be b0 b1 b2 b3 = 12 ∧ (t0, t1, t2, t3) = (106, 80, 32, 32)
          ∧ (s0, s1, s2, s3) = (13, 10, 135, 10)) →
      parse Box sb (b0 :: b1 :: b2 :: b3 :: t0 :: t1 :: t2 :: t3
          :: s0 :: s1 :: s2 :: s3 :: rest) = .error .notJP2Format) ∧
    (u16be b0 b1 ≠ 0xff4f →
      u32be b0 b1 b2 b3 = 12 → (t0, t1, t2, t3) = (106, 80, 32, 32) →
      (s0, s1, s2, s3) = (13, 10, 135, 10) →
      parse Box sb (b0 :: b1 :: b2 :: b3 :: t0 :: t1 :: t2 :: t3
          :: s0 :: s1 :: s2 :: s3 :: rest)
        = .ok (.jp2, sb (b0 :: b1 :: b2 :: b3 :: t0 :: t1 :: t2 :: t3
          :: s0 :: s1 :: s2 :: s3 :: rest))) := by
  refine ⟨fun h => ?_, fun h hn => ?_, fun h h1 h2 h3 => ?_⟩
  · simp only [parse]
    rw [if_pos h]
  · simp only [parse]
    rw [if_neg h, if_neg hn]
  · simp only [parse]
    rw [if_neg h, if_pos ⟨h1, h2, h3⟩]

theorem claim1_witness :
    parse Unit (fun _ => []) [255, 79, 0, 0, 0, 0, 0, 0, 0, 0, 0, 0]
        = .ok (.j2k, []) ∧
    parse Unit (fun _ => [])
        [0, 0, 0, 12, 106, 80, 32, 32, 13, 10, 135, 11]
        = .error .notJP2Format ∧
    parse Unit (fun _ => [()])
        [0, 0, 0, 12, 106, 80, 32, 32, 13, 10, 135, 10]
        = .ok (.jp2, [()]) :=
  ⟨(claim1_parse_format_detection Unit (fun _ => [])
      255 79 0 0 0 0 0 0 0 0 0 0 []).1 (by decide),
   (claim1_parse_format_detection Unit (fun _ => [])
      0 0 0 12 106 80 32 32 13 10 135 11 []).2.1 (by decide) (by decide),
   (claim1_parse_format_detection Unit (fun _ => [()])
      0 0 0 12 106 80 32 32 13 10 135 10 []).2.2 (by decide) (by decide)
      (by decide) (by decide)⟩

/-- **C2**: `Jp2k.read` fails with the `MixedSubsamplingError` before any
engine call whenever some component's dx or dy differs from component 0's
(empty effect trace), while `Jp2k.read_bands` is exactly `_read_common`
with `as_bands=True` — no subsampling check — and returns one
independently-shaped buffer per component. -/
theorem claim2_read_mixed_subsampling :
    (∀ siz : SizSegment, mixedSubsampling siz = true ↔
      ((∃ d ∈ siz.xrsiz, d ≠ siz.xrsiz.headD 0)
        ∨ (∃ d ∈ siz.yrsiz, d ≠ siz.yrsiz.headD 0))) ∧
    (∀ (fails : Effect → Bool) (engine : Dparams → OpjImage)
        (fmt : CodecFormat) (siz : SizSegment) (cod : CodSegment)
        (a : ReadArgs),
      mixedSubsampling siz = true →
      read fails engine fmt siz cod a = ([], .error .mixedSubsampling)) ∧
    (∀ (fails : Effect → Bool) (engine : Dparams → OpjImage)
        (fmt : CodecFormat) (cod : CodSegment) (a : ReadArgs),
      readBands fails engine fmt cod a
        = readCommon fails engine fmt cod a true) ∧
    (∀ (fmt : CodecFormat) (cod : CodSegment) (a : ReadArgs)
        (image : OpjImage) (c0 : Component) (rest : List Component)
        (dt : Dtype),
      a.area = none → a.tile = none →
      image.comps = c0 :: rest →
      chooseDtype c0.prec c0.sgnd = .ok dt →
      image.comps.any (fun c => c.h == 0 || c.w == 0) = false →
      (readBands noFail (fun _ => image) fmt cod a).2
        = .ok (.bands (image.comps.map (fun c => (c.h, c.w))) dt)) := by
  refine ⟨?_, ?_, ?_, ?_⟩
  · intro siz
    simp [mixedSubsampling, List.any_eq_true]
  · intro fails engine fmt siz cod a h
    simp [read, h]
  · intro fails engine fmt cod a
    rfl
  · intro fmt cod a image c0 rest dt ha ht hcomps hd hz
    rw [hcomps] at hz
    simp [readBands, readCommon, validateArea, ha, ht, readEngineSeq, noFail,
      postProcess, hcomps, hd, hz]

theorem claim2_witness :
    read noFail (fun _ => ⟨[]⟩) .jp2 ⟨[1, 2], [1, 1]⟩ ⟨[]⟩ {}
        = ([], .error .mixedSubsampling) ∧
    (readBands noFail (fun _ => ⟨[⟨2, 3, 8, false⟩]⟩) .jp2 ⟨[]⟩ {}).2
        = .ok (.bands [(2, 3)] .uint8) :=
  ⟨claim2_read_mixed_subsampling.2.1 noFail (fun _ => ⟨[]⟩) .jp2
      ⟨[1, 2], [1, 1]⟩ ⟨[]⟩ {} (by decide),
   claim2_read_mixed_subsampling.2.2.2 .jp2 ⟨[]⟩ {}
      ⟨[⟨2, 3, 8, false⟩]⟩ ⟨2, 3, 8, false⟩ [] .uint8 rfl rfl rfl
      rfl (by decide)⟩

/-- **C3**: a read with `reduce = -1` takes its resolution-reduction factor
from the parsed COD marker segment's `SPcod[4]` field (resolution levels
minus one) and, with the engine decoding each component at that reduction,
returns a buffer of dimensions `ceil(full_dim / 2^levels)`. -/
theorem claim3_thumbnail_reduce (rows cols n L prec : Nat) (sgnd : Bool)
    (dt : Dtype) (cod : CodSegment) (fmt : CodecFormat)
    (hL : cod.spcod.getD 4 0 = L) (hn : 0 < n) (hr : 0 < rows)
    (hc : 0 < cols) (hd : chooseDtype prec sgnd = .ok dt) :
    effectiveReduce cod (-1) = (L : Int) ∧
    (readCommon noFail (specEngine rows cols (List.replicate n (prec, sgnd)))
        fmt cod { reduce := -1 } false).2
      = .ok (.arr [ceilDiv rows (2 ^ L), ceilDiv cols (2 ^ L), n] dt) := by
  have hred : effectiveReduce cod (-1) = (L : Int) := by
    unfold effectiveReduce
    rw [if_pos rfl, hL]
  refine ⟨hred, ?_⟩
  obtain ⟨m, rfl⟩ : ∃ m, n = m + 1 := ⟨n - 1, by omega⟩
  have hpos : 0 < 2 ^ L := pow_pos (by norm_num) L
  have hrow : ceilDiv rows (2 ^ L) ≠ 0 := by
    have h1 : 2 ^ L ≤ rows + 2 ^ L - 1 := by omega
    have h2 : 1 ≤ (rows + 2 ^ L - 1) / 2 ^ L := (Nat.one_le_div_iff hpos).mpr h1
    unfold ceilDiv
    omega
  have hcol : ceilDiv cols (2 ^ L) ≠ 0 := by
    have h1 : 2 ^ L ≤ cols + 2 ^ L - 1 := by omega
    have h2 : 1 ≤ (cols + 2 ^ L - 1) / 2 ^ L := (Nat.one_le_div_iff hpos).mpr h1
    unfold ceilDiv
    omega
  have step1 : (readCommon noFail
      (specEngine rows cols (List.replicate (m + 1) (prec, sgnd)))
      fmt cod { reduce := -1 } false).2
      = postProcess
          (specEngine rows cols (List.replicate (m + 1) (prec, sgnd))
            { decodFormat := fmt, cpLayer := 0,
              cpReduce := effectiveReduce cod (-1), tileIndex := none })
          false := rfl
  rw [step1, hred]
  have step2 : specEngine rows cols (List.replicate (m + 1) (prec, sgnd))
      { decodFormat := fmt, cpLayer := 0, cpReduce := (L : Int),
        tileIndex := none }
      = ⟨List.replicate (m + 1)
          { h := ceilDiv rows (2 ^ L), w := ceilDiv cols (2 ^ L),
            prec := prec, sgnd := sgnd }⟩ := by
    unfold specEngine
    simp [List.map_replicate]
  rw [step2]
  have hany : (List.replicate (m + 1)
      ({ h := ceilDiv rows (2 ^ L), w := ceilDiv cols (2 ^ L),
         prec := prec, sgnd := sgnd } : Component)).any
      (fun c => c.h == 0 || c.w == 0) = false := by
    rw [List.any_eq_false]
    intro x hx
    rw [List.eq_of_mem_replicate hx]
    simp [hrow, hcol]
  simp only [postProcess, List.replicate_succ] at hany ⊢
  simp [hd, hany, ← List.replicate_succ]
  exact ⟨hrow, hcol⟩

theorem claim3_witness :
    effectiveReduce ⟨[0, 0, 0, 0, 5]⟩ (-1) = ((5 : Nat) : Int) ∧
    (readCommon noFail (specEngine 100 200 (List.replicate 3 (8, false)))
        .jp2 ⟨[0, 0, 0, 0, 5]⟩ { reduce := -1 } false).2
      = .ok (.arr [ceilDiv 100 (2 ^ 5), ceilDiv 200 (2 ^ 5), 3] .uint8) :=
  claim3_thumbnail_reduce 100 200 3 5 8 false .uint8 ⟨[0, 0, 0, 0, 5]⟩ .jp2
    rfl (by norm_num) (by norm_num) (by norm_num) rfl

/-- **C4**: a write-supplied code-block size (h, w) is rejected — before
the engine is invoked, with an empty effect trace — exactly when the area
exceeds 4096, a side is below 4, or a side is not a power of two; in
particular (5,5) and (64,128) are rejected while (4,4) and (64,64) are
accepted by the validation. -/
theorem claim4_write_cbsize_validation :
    (∀ h w : Nat, (validateCbsize h w).isSome = true ↔
      4096 < h * w ∨ h < 4 ∨ w < 4
        ∨ (¬∃ k, h = 2 ^ k) ∨ (¬∃ k, w = 2 ^ k)) ∧
    (∀ (fails : Effect → Bool) (a : WriteArgs) (h w : Nat) (e : WriteErr),
      a.cbsize = some (h, w) → validateCbsize h w = some e →
      write fails a = ([], .error e)) ∧
    (validateCbsize 5 5).isSome = true ∧
    validateCbsize 4 4 = none ∧
    (validateCbsize 64 128).isSome = true ∧
    validateCbsize 64 64 = none := by
  refine ⟨validateCbsize_isSome_iff, ?_, by decide, by decide, by decide,
    by decide⟩
  intro fails a h w e hcb hval
  exact write_of_config_error fails a e (writeConfig_cbsize_error a h w e hcb hval)

theorem claim4_witness :
    write noFail
      { filename := "t.jp2", shape := [2, 2], dtype := .uint8,
        cbsize := some (5, 5) }
      = ([], .error .codeBlockPow2) :=
  claim4_write_cbsize_validation.2.1 noFail
    { filename := "t.jp2", shape := [2, 2], dtype := .uint8,
      cbsize := some (5, 5) } 5 5 .codeBlockPow2 rfl (by decide)

/-- **C5**: supplying both `cratios` and `psnr` rejects the write with a
configuration error (never an engine failure), with an empty effect trace:
before any engine resource is allocated and before any file is created. -/
theorem claim5_write_quality_conflict (fails : Effect → Bool) (a : WriteArgs)
    (h1 : a.cratios.isSome = true) (h2 : a.psnr.isSome = true) :
    ∃ e, e ≠ .engineFailure ∧ write fails a = ([], .error e) := by
  cases hx : writeConfig a with
  | error e =>
    exact ⟨e, writeConfig_error_not_engine a e hx,
      write_of_config_error fails a e hx⟩
  | ok cfg =>
    exact absurd ⟨h1, h2⟩ (writeConfigFmt_ok_no_conflict _ a cfg hx)

theorem claim5_witness :
    ∃ e, e ≠ WriteErr.engineFailure ∧
      write noFail
        { filename := "t.jp2", shape := [2, 2, 3], dtype := .uint8,
          cratios := some [10], psnr := some [30] }
        = ([], .error e) :=
  claim5_write_quality_conflict noFail
    { filename := "t.jp2", shape := [2, 2, 3], dtype := .uint8,
      cratios := some [10], psnr := some [30] } rfl rfl

/-- **C6**: an area restriction with a negative upper-left coordinate or a
non-positive lower-right coordinate makes the read fail with the
`DecodeAreaError` before the engine is invoked (empty effect trace); in
particular (-1, 0, 10, 10) and (0, 0, 0, 5) fail. -/
theorem claim6_read_area_validation :
    (∀ (fails : Effect → Bool) (engine : Dparams → OpjImage)
        (fmt : CodecFormat) (cod : CodSegment) (red lay : Int)
        (tl : Option Nat) (b : Bool) (r0 c0 r1 c1 : Int),
      r0 < 0 ∨ c0 < 0 ∨ r1 ≤ 0 ∨ c1 ≤ 0 →
      readCommon fails engine fmt cod
        { reduce := red, layer := lay, area := some (r0, c0, r1, c1),
          tile := tl } b
        = ([], .error .decodeArea)) ∧
    (∀ (fails : Effect → Bool) (engine : Dparams → OpjImage)
        (fmt : CodecFormat) (cod : CodSegment) (b : Bool),
      readCommon fails engine fmt cod { area := some (-1, 0, 10, 10) } b
        = ([], .error .decodeArea)) ∧
    (∀ (fails : Effect → Bool) (engine : Dparams → OpjImage)
        (fmt : CodecFormat) (cod : CodSegment) (b : Bool),
      readCommon fails engine fmt cod { area := some (0, 0, 0, 5) } b
        = ([], .error .decodeArea)) := by
  have hva : ∀ (r0 c0 r1 c1 : Int), (r0 < 0 ∨ c0 < 0 ∨ r1 ≤ 0 ∨ c1 ≤ 0) →
      validateArea (some (r0, c0, r1, c1)) = some .decodeArea := by
    intro r0 c0 r1 c1 h
    simp only [validateArea]
    by_cases h1 : r0 < 0 ∨ c0 < 0
    · rw [if_pos h1]
    · rw [if_neg h1, if_pos (by tauto)]
  refine ⟨?_, ?_, ?_⟩
  · intro fails engine fmt cod red lay tl b r0 c0 r1 c1 h
    simp [readCommon, hva r0 c0 r1 c1 h]
  · intro fails engine fmt cod b
    simp [readCommon, hva (-1) 0 10 10 (by norm_num)]
  · intro fails engine fmt cod b
    simp [readCommon, hva 0 0 0 5 (by norm_num)]

theorem claim6_witness :
    readCommon noFail (fun _ => ⟨[]⟩) .jp2 ⟨[]⟩
      { reduce := 0, layer := 0, area := some (-1, 0, 10, 10), tile := none }
      false = ([], .error .decodeArea) :=
  claim6_read_area_validation.1 noFail (fun _ => ⟨[]⟩) .jp2 ⟨[]⟩ 0 0 none
    false (-1) 0 10 10 (by norm_num)

/-- **C7**: the output datatype is chosen from decoded component 0's
declared bit depth and signedness — depth ≤ 8 gives an 8-bit type, depth
≤ 16 a 16-bit type, signed exactly when the component is signed — and any
depth above 16 is rejected with the unsupported-precision error, also
through the whole post-decode phase. -/
theorem claim7_dtype_selection :
    (∀ (prec : Nat) (sgnd : Bool), prec ≤ 8 →
      ∃ dt, chooseDtype prec sgnd = .ok dt
        ∧ dtypeWidth dt = 8 ∧ dtypeSigned dt = sgnd) ∧
    (∀ (prec : Nat) (sgnd : Bool), 8 < prec → prec ≤ 16 →
      ∃ dt, chooseDtype prec sgnd = .ok dt
        ∧ dtypeWidth dt = 16 ∧ dtypeSigned dt = sgnd) ∧
    (∀ (prec : Nat) (sgnd : Bool), 16 < prec →
      chooseDtype prec sgnd = .error .unhandledPrecision) ∧
    (∀ (image : OpjImage) (b : Bool) (c0 : Component) (rest : List Component),
      image.comps = c0 :: rest → 16 < c0.prec →
      postProcess image b = .error .unhandledPrecision) := by
  refine ⟨?_, ?_, ?_, ?_⟩
  · intro prec sgnd h
    cases sgnd
    · exact ⟨.uint8, by simp [chooseDtype, h], rfl, rfl⟩
    · exact ⟨.int8, by simp [chooseDtype, h], rfl, rfl⟩
  · intro prec sgnd h1 h2
    have h8 : ¬(prec ≤ 8) := by omega
    cases sgnd
    · exact ⟨.uint16, by simp [chooseDtype, h8, h2], rfl, rfl⟩
    · exact ⟨.int16, by simp [chooseDtype, h8, h2], rfl, rfl⟩
  · intro prec sgnd h
    have h8 : ¬(prec ≤ 8) := by omega
    have h16 : ¬(prec ≤ 16) := by omega
    cases sgnd <;> simp [chooseDtype, h8, h16]
  · intro image b c0 rest hcomps h
    have h8 : ¬(c0.prec ≤ 8) := by omega
    have h16 : ¬(c0.prec ≤ 16) := by omega
    have hcd : chooseDtype c0.prec c0.sgnd = .error .unhandledPrecision := by
      rcases hsg : c0.sgnd <;> simp [chooseDtype, hsg, h8, h16]
    simp [postProcess, hcomps, hcd]

theorem claim7_witness :
    chooseDtype 17 false = .error .unhandledPrecision ∧
    (∃ dt, chooseDtype 8 true = .ok dt
      ∧ dtypeWidth dt = 8 ∧ dtypeSigned dt = true) :=
  ⟨claim7_dtype_selection.2.2.1 17 false (by norm_num),
   claim7_dtype_selection.1 8 true (by norm_num)⟩

/-- **C8**: with no explicit colorspace, 1 or 2 components default to
grayscale and 3 or more to sRGB; an explicit colorspace with a
bare-codestream output target (non-`.jp2` extension) is rejected. -/
theorem claim8_write_colorspace_policy :
    (∀ (a : WriteArgs) (cfg : WriteConfig), a.colorspace = none →
      writeConfig a = .ok cfg →
      (cfg.numComps = 1 ∨ cfg.numComps = 2 → cfg.colorspace = .gray) ∧
      (3 ≤ cfg.numComps → cfg.colorspace = .srgb)) ∧
    (∀ (fails : Effect → Bool) (a : WriteArgs) (s : String),
      a.colorspace = some s → isJp2Filename a.filename = false →
      ∃ e, write fails a = ([], .error e)) := by
  constructor
  · intro a cfg hcs h
    have hres := writeConfigFmt_ok_colorspace _ a cfg h
    rw [hcs] at hres
    unfold resolveColorspace at hres
    constructor
    · intro hn
      have hcond : (decide (cfg.numComps = 1) || decide (cfg.numComps = 2))
          = true := by
        rcases hn with h' | h' <;> simp [h']
      rw [if_pos hcond] at hres
      injection hres with h'
      exact h'.symm
    · intro hn
      have hcond : ¬((decide (cfg.numComps = 1) || decide (cfg.numComps = 2))
          = true) := by
        simp only [Bool.or_eq_true, decide_eq_true_eq]
        omega
      rw [if_neg hcond] at hres
      injection hres with h'
      exact h'.symm
  · intro fails a s hcs hj
    apply write_rejected_of_not_ok
    intro cfg hok
    have hres := writeConfigFmt_ok_colorspace _ a cfg hok
    rw [hcs, hj] at hres
    simp [resolveColorspace] at hres

theorem claim8_witness :
    ∃ e, write noFail
      { filename := "t.j2k", shape := [2, 2, 3], dtype := .uint8,
        colorspace := some "rgb" }
      = ([], .error e) :=
  claim8_write_colorspace_policy.2 noFail
    { filename := "t.j2k", shape := [2, 2, 3], dtype := .uint8,
      colorspace := some "rgb" } "rgb" rfl (by decide)

/-- **C9** (amended): on every read path — `read` and `read_bands`, for
every engine-failure pattern — the `ExitStack` releases every acquired
engine resource on every exit path, in strict reverse order of
acquisition; `write` releases in reverse acquisition order on its
successful path only, and an engine failure during `write` releases
nothing. -/
theorem claim9_scoped_release :
    (∀ (fails : Effect → Bool) (engine : Dparams → OpjImage)
        (fmt : CodecFormat) (siz : SizSegment) (cod : CodSegment)
        (a : ReadArgs),
      scopedRelease fails (read fails engine fmt siz cod a).1) ∧
    (∀ (fails : Effect → Bool) (engine : Dparams → OpjImage)
        (fmt : CodecFormat) (cod : CodSegment) (a : ReadArgs),
      scopedRelease fails (readBands fails engine fmt cod a).1) ∧
    (∀ (fails : Effect → Bool) (a : WriteArgs) (tr : List Effect)
        (cfg : WriteConfig),
      write fails a = (tr, .ok cfg) → scopedRelease fails tr) := by
  refine ⟨?_, ?_, ?_⟩
  · intro fails engine fmt siz cod a
    unfold read
    split
    · simp [scopedRelease, released, acquired]
    · dsimp only
      exact readCommon_scoped fails engine fmt cod a false
  · intro fails engine fmt cod a
    exact readCommon_scoped fails engine fmt cod a true
  · exact write_ok_scoped

/-- **C9** (counterexample to the claim as stated): when the engine's
`opj_encode` call fails during `write`, the trace ends at the failing call:
the image, codec and stream handles acquired before it are never released,
so the write operation does not release each acquired resource on this
error path. -/
theorem claim9_counterexample :
    ¬ scopedRelease failEncode (write failEncode leakArgs).1 := by
  decide

theorem claim9_witness :
    scopedRelease noFail
      [.imageCreate, .createCompress, .setupEncoder, .streamCreate,
       .startCompress, .encode, .endCompress,
       .streamDestroy, .destroyCodec, .imageDestroy] :=
  claim9_scoped_release.2.2 noFail leakArgs
    [.imageCreate, .createCompress, .setupEncoder, .streamCreate,
     .startCompress, .encode, .endCompress,
     .streamDestroy, .destroyCodec, .imageDestroy]
    { cparams := { codFormat := .jp2 }, colorspace := .gray, compPrec := 8,
      numrows := 2, numcols := 2, numComps := 1 }
    rfl

/-- **C10**: a successful `read` of an image decoded with exactly one
component returns a 2-D `(rows, cols)` array — the singleton component
axis is dropped — while 2 or more components give a 3-D
`(rows, cols, components)` array. -/
theorem claim10_read_shape_squeeze (fmt : CodecFormat) (siz : SizSegment)
    (cod : CodSegment) (a : ReadArgs) (image : OpjImage) (c0 : Component)
    (rest : List Component) (dt : Dtype)
    (hm : mixedSubsampling siz = false)
    (ha : a.area = none) (ht : a.tile = none)
    (hcomps : image.comps = c0 :: rest)
    (hd : chooseDtype c0.prec c0.sgnd = .ok dt)
    (hz : image.comps.any (fun c => c.h == 0 || c.w == 0) = false) :
    (rest = [] →
      (read noFail (fun _ => image) fmt siz cod a).2
        = .ok (.arr [c0.h, c0.w] dt)) ∧
    (rest ≠ [] →
      (read noFail (fun _ => image) fmt siz cod a).2
        = .ok (.arr [c0.h, c0.w, rest.length + 1] dt)) := by
  have hcommon : (readCommon noFail (fun _ => image) fmt cod a false).2
      = .ok (.arr [c0.h, c0.w, rest.length + 1] dt) := by
    rw [hcomps] at hz
    simp [readCommon, validateArea, ha, ht, readEngineSeq, noFail,
      postProcess, hcomps, hd, hz]
  constructor
  · intro hrest
    subst hrest
    simp [read, hm, hcommon, dropSingletonComp, Except.map,
      List.getD_cons_succ, List.getD_cons_zero]
  · intro hrest
    have hne : rest.length + 1 ≠ 1 := by
      intro hcontra
      exact hrest (List.length_eq_zero.mp (by omega))
    simp [read, hm, hcommon, dropSingletonComp, hne, Except.map,
      List.getD_cons_succ, List.getD_cons_zero]

theorem claim10_witness :
    (read noFail (fun _ => (⟨[⟨4, 5, 8, false⟩]⟩ : OpjImage)) .jp2
        ⟨[1], [1]⟩ ⟨[]⟩ {}).2 = .ok (.arr [4, 5] .uint8) :=
  (claim10_read_shape_squeeze .jp2 ⟨[1], [1]⟩ ⟨[]⟩ {} ⟨[⟨4, 5, 8, false⟩]⟩
    ⟨4, 5, 8, false⟩ [] .uint8 (by decide) rfl rfl rfl rfl (by decide)).1 rfl

end Glymur
